import Mathlib

/-!
# Spaceballs web input/viewport layer — verification development

Shallow embedding of the browser-side input-normalization and
responsive-viewport layer of the Cosmic Spaceball Tactical Action Arena
web front end (`web/main.ts` and its later iteration adding sticks and
clipboard relay), together with proofs of its specified properties.

Numeric values (canvas dimensions, axis values) are modelled over `ℚ`:
the source computes with JavaScript numbers, and the idealized exact
arithmetic is what the specification's formulas describe.
-/

namespace Spaceballs

/-! ## ViewportSizer

`recalculateCanvasSize` from the final iteration: given the canvas's
native width `cw` and height `ch` and the host body's client width `W`
and height `H`, it computes the contain/letterbox fit

```ts
let ratio = c.width / c.height;
let wid = document.body.clientWidth;
let hei = document.body.clientHeight;
if (wid/hei > ratio) { wid = ratio * hei; } else { hei = wid / ratio; }
window.playArea = [wid, hei];
```
-/

/-- The pair `[wid, hei]` computed by `recalculateCanvasSize` before it is
stored into `window.playArea`. -/
def recalculateCanvasSize (cw ch W H : ℚ) : ℚ × ℚ :=
  if W / H > cw / ch then (cw / ch * H, H) else (W, W / (cw / ch))

/-- The pending-size slot `window.playArea : [number, number] | null`. -/
abbrev PlayArea := Option (ℚ × ℚ)

/-- The state update performed by `recalculateCanvasSize`: the computed pair
overwrites whatever was pending (`window.playArea = [wid, hei]`). -/
def recalculateCanvasSizeState (cw ch W H : ℚ) (_s : PlayArea) : PlayArea :=
  some (recalculateCanvasSize cw ch W H)

/-- `detectWindowResize(): boolean { return window.playArea !== null; }` -/
def detectWindowResize (s : PlayArea) : Bool :=
  s.isSome

/-- `getNewWindowSize()` returns the pending value and clears the slot:
`const size = window.playArea; window.playArea = null; return size;`.
The result is the returned value paired with the new slot state. -/
def getNewWindowSize (s : PlayArea) : Option (ℚ × ℚ) × PlayArea :=
  (s, none)

/-! ## ClipboardRelay

```ts
class PasteData { constructor(public paste: string, public error: string) {} }

export function setPasteBuffer(entity_index: number) {
    window.navigator.clipboard.readText()
        .then(paste => window.pasteBufferMap.set(entity_index, new PasteData(paste, "")))
        .catch(err => window.pasteBufferMap.set(entity_index, new PasteData("", err)));
}

export function getPasteBuffer(entity_index: number) {
    const clipboardData = window.pasteBufferMap.get(entity_index);
    if (clipboardData) {
        window.pasteBufferMap.delete(entity_index);
        if (clipboardData.error) throw new Error(clipboardData.error);
        return clipboardData.paste;
    }
}
```

The keyed store `window.pasteBufferMap : Map<number, PasteData>` is
modelled as a function `ℕ → Option PasteData`; JavaScript string
truthiness (`if (clipboardData.error)`) is non-emptiness.
-/

/-- `PasteData` with its `paste` text and `error` string fields. -/
structure PasteData where
  paste : String
  error : String
deriving DecidableEq

/-- The keyed store `window.pasteBufferMap`. -/
abbrev PasteBufferMap := ℕ → Option PasteData

/-- `Map.set`: store `d` under key `i`, overwriting any previous entry. -/
def mapSet (m : PasteBufferMap) (i : ℕ) (d : PasteData) : PasteBufferMap :=
  fun j => if j = i then some d else m j

/-- `Map.delete`: remove the entry under key `i`. -/
def mapDelete (m : PasteBufferMap) (i : ℕ) : PasteBufferMap :=
  fun j => if j = i then none else m j

/-- How the asynchronous clipboard read issued by `setPasteBuffer` settles:
either the promise resolves with text, or it rejects with an error whose
string form is recorded. -/
inductive ReadOutcome where
  | success (text : String)
  | failure (err : String)
deriving DecidableEq

/-- The store update performed by `setPasteBuffer`'s promise callbacks when
the read for `entity_index = i` settles: `.then` stores
`PasteData(paste, "")`, `.catch` stores `PasteData("", err)`. -/
def setPasteBufferSettle (i : ℕ) (o : ReadOutcome) (m : PasteBufferMap) : PasteBufferMap :=
  match o with
  | .success t => mapSet m i ⟨t, ""⟩
  | .failure e => mapSet m i ⟨"", e⟩

/-- The three observable outcomes of `getPasteBuffer`: a returned paste
string, a thrown error, or the implicit `undefined` return when no entry
exists ("not available"). -/
inductive PollResult where
  | paste (t : String)
  | thrown (err : String)
  | notAvailable
deriving DecidableEq

/-- `getPasteBuffer(i)`: look up key `i`; if present, delete it and either
throw the stored error (when truthy, i.e. non-empty) or return the stored
paste text; if absent, return `undefined`. The result is the observable
outcome paired with the new store. -/
def getPasteBuffer (i : ℕ) (m : PasteBufferMap) : PollResult × PasteBufferMap :=
  match m i with
  | some d =>
      (if d.error = "" then PollResult.paste d.paste else PollResult.thrown d.error,
       mapDelete m i)
  | none => (PollResult.notAvailable, m)

/-! ## Scene query parameter

```ts
function getUrlParam(param: string): string {
    const paramString = window.location.search.slice(1);
    const searchParams = new URLSearchParams(paramString);
    const result = searchParams.get(param);
    return String(result);
}
export function getSceneFromUrl(): string { return getUrlParam("scene"); }
```

The platform's `URLSearchParams` is modelled at the level of the parsed
parameter list: `get` returns the first value bound to the name, or
`null` when none is; `String(null)` is the literal string `"null"` and
`String(s)` for a string `s` is `s` itself.
-/

/-- `getUrlParam`: first value bound to `param` in the parsed query
parameter list, stringified — so `"null"` when the parameter is absent. -/
def getUrlParam (search : List (String × String)) (param : String) : String :=
  match search.find? (fun kv => kv.1 == param) with
  | some kv => kv.2
  | none => "null"

/-- `getSceneFromUrl`: the `"scene"` query parameter. -/
def getSceneFromUrl (search : List (String × String)) : String :=
  getUrlParam search "scene"

/-! ## InputBridge

```ts
let fakePress = function(key: string, code: string, type: string) {
    c.dispatchEvent(new KeyboardEvent(type, {'key': key, 'code': code}));
}
let setupOneButton = function(button: Element, key: string, code: string) {
    if (!(button instanceof HTMLElement)) return;
    button.onmousedown   = (e) => { fakePress(key, code, 'keydown'); ... }
    button.onmouseup     = (e) => { fakePress(key, code, 'keyup'); ... }
    button.ontouchstart  = (e) => { fakePress(key, code, 'keydown'); ... }
    button.ontouchend    = (e) => { fakePress(key, code, 'keyup'); ... }
    button.ontouchcancel = (e) => { fakePress(key, code, 'keyup'); ... }
}
```

A handler table is modelled as the function from the interaction kind to
the list of synthetic keyboard events the installed handler dispatches on
the render surface.
-/

/-- A synthetic `KeyboardEvent(type, {key, code})`. -/
structure KeyEvent where
  type : String
  key : String
  code : String
deriving DecidableEq

/-- The five pointer/touch interactions `setupOneButton` installs handlers
for. -/
inductive Interaction where
  | mousedown
  | mouseup
  | touchstart
  | touchend
  | touchcancel
deriving DecidableEq

/-- `fakePress(key, code, type)` dispatches one `KeyboardEvent` of the given
type carrying the given key and code. -/
def fakePress (key code type : String) : KeyEvent :=
  ⟨type, key, code⟩

/-- The handlers `setupOneButton(button, key, code)` installs: each
interaction fires exactly the listed synthetic events (each handler body is
a single `fakePress` call). -/
def setupOneButton (key code : String) : Interaction → List KeyEvent
  | .mousedown => [fakePress key code "keydown"]
  | .mouseup => [fakePress key code "keyup"]
  | .touchstart => [fakePress key code "keydown"]
  | .touchend => [fakePress key code "keyup"]
  | .touchcancel => [fakePress key code "keyup"]

/-- All five interaction kinds. -/
def interactionList : List Interaction :=
  [.mousedown, .mouseup, .touchstart, .touchend, .touchcancel]

/-- The `(key, code)` pairs `setupControls` binds in the final iteration
(`src/unnamed/part_001`): `key_f → ('f','KeyF')`, `key_c → ('c','KeyC')`,
`key_space → (' ','Space')`. -/
def setupControlsBindings : List (String × String) :=
  [("f", "KeyF"), ("c", "KeyC"), (" ", "Space")]

/-- The `(key, code)` pairs `setupControls` binds in the earlier iteration
(`src/web/main.ts`): `key_w`, `key_a`, `key_s`, `key_d`, `key_space`. -/
def setupControlsBindingsWeb : List (String × String) :=
  [("w", "KeyW"), ("a", "KeyA"), ("s", "KeyS"), ("d", "KeyD"), (" ", "Space")]

/-- Every synthetic event some bound button of the given binding table can
dispatch, across all five interaction kinds. -/
def dispatchedEvents (bindings : List (String × String)) : List KeyEvent :=
  bindings.flatMap fun kc => interactionList.flatMap (setupOneButton kc.1 kc.2)

/-- The `(key, code)` pairs enumerated by the specification's external
interface section, for comparison with the tables bound by the source. -/
def specKeyPairs : List (String × String) :=
  [("w", "KeyW"), ("a", "KeyA"), ("s", "KeyS"), ("d", "KeyD"),
   (" ", "Space"), ("f", "KeyF"), ("c", "KeyC")]

/-! ## AnalogStickTracker

```ts
const STICK_SIZE_PORTRAIT = 200;
const STICK_SIZE_LANDSCAPE = 100;
window.sticksPosition = [0, 0];
window.joysticks = null;

function recreateJoysticks(isLandscape: boolean): void {
    if (window.joysticks !== null) {
        window.joysticks[0].destroy();
        window.joysticks[1].destroy();
    }
    let size = isLandscape ? STICK_SIZE_LANDSCAPE : STICK_SIZE_PORTRAIT;
    var leftStickManager = nipplejs.create({... lockX: true, size: size});
    leftStickManager.on("move", (_event, data) => {
        window.sticksPosition[0] = data.vector.x * (data.distance / size) * 2;
    });
    leftStickManager.on("end", () => { window.sticksPosition[0] = 0; });
    var rightStickManager = nipplejs.create({... lockY: true, size: size});
    rightStickManager.on("move", (_event, data) => {
        window.sticksPosition[1] = data.vector.y * (data.distance / size) * 2;
    });
    rightStickManager.on("end", () => { window.sticksPosition[1] = 0; });
    window.joysticks = [leftStickManager, rightStickManager];
}
```
-/

def STICK_SIZE_PORTRAIT : ℕ := 200

def STICK_SIZE_LANDSCAPE : ℕ := 100

/-- A `nipplejs` stick manager as configured by `recreateJoysticks`: its
size preset and which axis it is locked to. -/
structure JoystickManager where
  size : ℕ
  lockX : Bool
  lockY : Bool
deriving DecidableEq

/-- The stick subsystem's ambient state: `window.joysticks` (the current
manager pair, `null` before first setup) and `window.sticksPosition` (the
two published axis values). -/
structure ControlsState where
  joysticks : Option (JoystickManager × JoystickManager)
  sticksPosition : ℚ × ℚ
deriving DecidableEq

/-- The module-load initialization: `window.joysticks = null;
window.sticksPosition = [0, 0];`. -/
def initialControlsState : ControlsState :=
  { joysticks := none, sticksPosition := (0, 0) }

/-- The payload of a `nipplejs` "move" event: the drag direction's unit
vector and the drag's distance from the widget's neutral center. -/
structure StickMoveData where
  vector : ℚ × ℚ
  distance : ℚ

/-- The left stick's "move" handler:
`window.sticksPosition[0] = data.vector.x * (data.distance / size) * 2`. -/
def leftStickOnMove (size : ℚ) (data : StickMoveData) (s : ControlsState) : ControlsState :=
  { s with sticksPosition :=
      (data.vector.1 * (data.distance / size) * 2, s.sticksPosition.2) }

/-- The left stick's "end" handler: `window.sticksPosition[0] = 0`. -/
def leftStickOnEnd (s : ControlsState) : ControlsState :=
  { s with sticksPosition := (0, s.sticksPosition.2) }

/-- The right stick's "move" handler:
`window.sticksPosition[1] = data.vector.y * (data.distance / size) * 2`. -/
def rightStickOnMove (size : ℚ) (data : StickMoveData) (s : ControlsState) : ControlsState :=
  { s with sticksPosition :=
      (s.sticksPosition.1, data.vector.2 * (data.distance / size) * 2) }

/-- The right stick's "end" handler: `window.sticksPosition[1] = 0`. -/
def rightStickOnEnd (s : ControlsState) : ControlsState :=
  { s with sticksPosition := (s.sticksPosition.1, 0) }

/-- Modelled from the spec: `nipplejs.JoystickManager.destroy()` is library
code not among this repository's sources. Per the spec, destroying the
stick widgets discards any in-flight drag — "any active drag at the moment
of rotation is discarded to 0" — so destruction drops the manager pair and
resets both published axis values to 0. -/
def destroyJoysticks (_s : ControlsState) : ControlsState :=
  { joysticks := none, sticksPosition := (0, 0) }

/-- `recreateJoysticks(isLandscape)`: destroy the current managers when
present, pick the size preset for the orientation, and install a fresh
`lockX` left manager and `lockY` right manager of that size. -/
def recreateJoysticks (isLandscape : Bool) (s : ControlsState) : ControlsState :=
  let s1 := if s.joysticks.isSome then destroyJoysticks s else s
  let size := if isLandscape then STICK_SIZE_LANDSCAPE else STICK_SIZE_PORTRAIT
  { s1 with joysticks := some (⟨size, true, false⟩, ⟨size, false, true⟩) }

/-! ## Theorems -/

/-- C2: the pending-size channel delivers each computed size at most once —
after a computation publishes a size, the first `getNewWindowSize` call
returns it and clears the slot, a second call with no intervening
computation returns `none`, and `detectWindowResize` is `true` on a slot
holding an unconsumed size and `false` on an empty slot. -/
theorem spaceballs_C2 (cw ch W H : ℚ) (p : ℚ × ℚ) :
    (getNewWindowSize (recalculateCanvasSizeState cw ch W H none)).1
        = some (recalculateCanvasSize cw ch W H)
    ∧ (getNewWindowSize (recalculateCanvasSizeState cw ch W H none)).2 = none
    ∧ (getNewWindowSize
        (getNewWindowSize (recalculateCanvasSizeState cw ch W H none)).2).1 = none
    ∧ detectWindowResize (some p) = true
    ∧ detectWindowResize none = false := by
  refine ⟨rfl, rfl, rfl, rfl, rfl⟩

/-- C5: the `(key, code)` pairs the input bridge can synthesize — across the
binding tables installed by `setupControls` in `src/unnamed/part_001` and
`src/web/main.ts` — are exactly the seven pairs enumerated by the spec:
every dispatched synthetic event carries one of those pairs, and every one
of the seven pairs is bound to some on-screen button at setup. -/
theorem spaceballs_C5 :
    ((dispatchedEvents (setupControlsBindings ++ setupControlsBindingsWeb)).all
        fun e => specKeyPairs.contains (e.key, e.code)) = true
    ∧ (specKeyPairs.all
        fun kc => (setupControlsBindings ++ setupControlsBindingsWeb).contains kc) = true := by
  constructor
  · decide
  · decide

/-- C6: for a button bound with `(key, code)`, each press interaction
(mouse-down, touch-start) dispatches exactly one synthetic key-down with
that pair, each release interaction (mouse-up, touch-end, touch-cancel)
dispatches exactly one synthetic key-up with that pair, and touch-cancel
is handled identically to touch-end. -/
theorem spaceballs_C6 (key code : String) :
    setupOneButton key code Interaction.mousedown = [⟨"keydown", key, code⟩]
    ∧ setupOneButton key code Interaction.touchstart = [⟨"keydown", key, code⟩]
    ∧ setupOneButton key code Interaction.mouseup = [⟨"keyup", key, code⟩]
    ∧ setupOneButton key code Interaction.touchend = [⟨"keyup", key, code⟩]
    ∧ setupOneButton key code Interaction.touchcancel
        = setupOneButton key code Interaction.touchend := by
  refine ⟨rfl, rfl, rfl, rfl, rfl⟩

/-- C7: a "move" interaction on a stick of size `size` with drag unit-vector
component `v` along the stick's locked axis (x for the `lockX` left stick,
y for the `lockY` right stick) and drag distance `d` sets that axis to
exactly `v * (d / size) * 2`, leaving the other axis untouched; the formula
is unclamped — e.g. size 100, component 1, distance 200 yields 4. -/
theorem spaceballs_C7 (size : ℚ) (data : StickMoveData) (s : ControlsState) :
    (leftStickOnMove size data s).sticksPosition.1
        = data.vector.1 * (data.distance / size) * 2
    ∧ (leftStickOnMove size data s).sticksPosition.2 = s.sticksPosition.2
    ∧ (rightStickOnMove size data s).sticksPosition.2
        = data.vector.2 * (data.distance / size) * 2
    ∧ (rightStickOnMove size data s).sticksPosition.1 = s.sticksPosition.1
    ∧ (leftStickOnMove 100 ⟨(1, 0), 200⟩ s).sticksPosition.1 = 4 := by
  refine ⟨rfl, rfl, rfl, rfl, ?_⟩
  norm_num [leftStickOnMove]

/-- C3: polling a request id with a stored entry removes the entry and
returns the stored text when no error was stored (empty error field) or
throws the stored error when one was; the entry is removed even on the
throwing path, so a second poll with no new read returns the distinct
"not available" result, as does a poll for an id with no entry (never
settled or never issued). -/
theorem spaceballs_C3 (m : PasteBufferMap) (i : ℕ) (d : PasteData)
    (hm : m i = some d) :
    (d.error = "" → (getPasteBuffer i m).1 = PollResult.paste d.paste)
    ∧ (d.error ≠ "" → (getPasteBuffer i m).1 = PollResult.thrown d.error)
    ∧ (getPasteBuffer i m).2 i = none
    ∧ (getPasteBuffer i (getPasteBuffer i m).2).1 = PollResult.notAvailable
    ∧ (∀ m' : PasteBufferMap, m' i = none →
        (getPasteBuffer i m').1 = PollResult.notAvailable ∧ (getPasteBuffer i m').2 = m')
    ∧ (∀ t e, PollResult.notAvailable ≠ PollResult.paste t
        ∧ PollResult.notAvailable ≠ PollResult.thrown e) := by
  have hdel : (getPasteBuffer i m).2 i = none := by
    simp [getPasteBuffer, hm, mapDelete]
  refine ⟨?_, ?_, hdel, ?_, ?_, ?_⟩
  · intro he
    simp [getPasteBuffer, hm, he]
  · intro he
    simp [getPasteBuffer, hm, he]
  · have h2 : (getPasteBuffer i m).2 = mapDelete m i := by
      simp [getPasteBuffer, hm]
    have hdel2 : mapDelete m i i = none := by simp [mapDelete]
    rw [h2]
    simp [getPasteBuffer, hdel2]
  · intro m' hm'
    simp [getPasteBuffer, hm']
  · intro t e
    exact ⟨by simp, by simp⟩

/-- Witness for C3, realizing the spec's example: after `issueRead(7)`
settles successfully with text "hello" on an empty store, `pollResult(7)`
returns "hello" and an immediate second `pollResult(7)` returns
"not available". -/
theorem spaceballs_C3_witness :
    (getPasteBuffer 7 (setPasteBufferSettle 7 (ReadOutcome.success "hello")
        fun _ => none)).1 = PollResult.paste "hello"
    ∧ (getPasteBuffer 7 (getPasteBuffer 7 (setPasteBufferSettle 7
        (ReadOutcome.success "hello") fun _ => none)).2).1 = PollResult.notAvailable := by
  have hm : (setPasteBufferSettle 7 (ReadOutcome.success "hello") fun _ => none) 7
      = some ⟨"hello", ""⟩ := by
    simp [setPasteBufferSettle, mapSet]
  have h := spaceballs_C3 (setPasteBufferSettle 7 (ReadOutcome.success "hello")
    fun _ => none) 7 ⟨"hello", ""⟩ hm
  exact ⟨h.1 rfl, h.2.2.2.1⟩

/-- C10: `getPasteBuffer` throws if and only if the stored error string is
non-empty; a read that fails with an error whose string form is empty is
stored as `PasteData("", "")` — the very store update a successful read of
empty clipboard text performs — and is returned by the poll as a successful
empty-text read. -/
theorem spaceballs_C10 (m : PasteBufferMap) (i : ℕ) (d : PasteData)
    (hm : m i = some d) :
    ((getPasteBuffer i m).1 = PollResult.thrown d.error ↔ d.error ≠ "")
    ∧ setPasteBufferSettle i (ReadOutcome.failure "") m
        = setPasteBufferSettle i (ReadOutcome.success "") m
    ∧ setPasteBufferSettle i (ReadOutcome.failure "") m i = some ⟨"", ""⟩
    ∧ (getPasteBuffer i (setPasteBufferSettle i (ReadOutcome.failure "") m)).1
        = PollResult.paste "" := by
  refine ⟨?_, rfl, ?_, ?_⟩
  · constructor
    · intro hthrown he
      rw [he] at hthrown
      simp [getPasteBuffer, hm, he] at hthrown
    · intro he
      simp [getPasteBuffer, hm, he]
  · simp [setPasteBufferSettle, mapSet]
  · simp [getPasteBuffer, setPasteBufferSettle, mapSet]

/-- Witness for C10 at a concrete store: with an entry `PasteData("x","boom")`
stored under id 3, polling id 3 throws "boom"; re-settling id 3 with a
failure whose error string is empty makes the poll return a successful
empty-text read. -/
theorem spaceballs_C10_witness :
    (getPasteBuffer 3 (mapSet (fun _ => none) 3 ⟨"x", "boom"⟩)).1
        = PollResult.thrown "boom"
    ∧ (getPasteBuffer 3 (setPasteBufferSettle 3 (ReadOutcome.failure "")
        (mapSet (fun _ => none) 3 ⟨"x", "boom"⟩))).1 = PollResult.paste "" := by
  have hm : (mapSet (fun _ => none) 3 ⟨"x", "boom"⟩ : PasteBufferMap) 3
      = some ⟨"x", "boom"⟩ := by
    simp [mapSet]
  have h := spaceballs_C10 (mapSet (fun _ => none) 3 ⟨"x", "boom"⟩) 3 ⟨"x", "boom"⟩ hm
  exact ⟨h.1.mpr (by decide), h.2.2.2⟩

/-- C4: on every orientation change, `recreateJoysticks` destroys the stick
widget pair and reconstructs it with the new orientation's size preset
(landscape preset when landscape, portrait preset otherwise), and any axis
value active at the flip is reset to 0 rather than preserved into the
rebuilt sticks. The widget-destruction semantics are spec-modelled (see
`destroyJoysticks`). -/
theorem spaceballs_C4 (s : ControlsState) (isL : Bool)
    (h : s.joysticks.isSome = true) :
    (recreateJoysticks isL s).joysticks
        = some (⟨if isL then STICK_SIZE_LANDSCAPE else STICK_SIZE_PORTRAIT, true, false⟩,
                ⟨if isL then STICK_SIZE_LANDSCAPE else STICK_SIZE_PORTRAIT, false, true⟩)
    ∧ (recreateJoysticks isL s).sticksPosition = (0, 0) := by
  constructor
  · simp [recreateJoysticks, destroyJoysticks, h]
  · simp [recreateJoysticks, destroyJoysticks, h]

/-- Witness for C4: flipping to portrait from a state whose sticks are at
the landscape preset with a drag in flight rebuilds both widgets at the
portrait preset and resets both axes to 0. -/
theorem spaceballs_C4_witness :
    (recreateJoysticks false
        ⟨some (⟨100, true, false⟩, ⟨100, false, true⟩), (1, 1/2)⟩).joysticks
        = some (⟨STICK_SIZE_PORTRAIT, true, false⟩, ⟨STICK_SIZE_PORTRAIT, false, true⟩)
    ∧ (recreateJoysticks false
        ⟨some (⟨100, true, false⟩, ⟨100, false, true⟩), (1, 1/2)⟩).sticksPosition
        = (0, 0) := by
  have h := spaceballs_C4
    ⟨some (⟨100, true, false⟩, ⟨100, false, true⟩), (1, 1/2)⟩ false rfl
  exact ⟨h.1, h.2⟩

/-- C8: each analog axis is exactly 0 immediately after stick construction —
both at the initial construction from the module-load state and at every
reconstruction on orientation change — and exactly 0 immediately after
every "end" interaction on that stick. -/
theorem spaceballs_C8 :
    initialControlsState.sticksPosition = (0, 0)
    ∧ (∀ isL, (recreateJoysticks isL initialControlsState).sticksPosition = (0, 0))
    ∧ (∀ s : ControlsState, (leftStickOnEnd s).sticksPosition.1 = 0
        ∧ (rightStickOnEnd s).sticksPosition.2 = 0)
    ∧ (∀ (s : ControlsState) (isL : Bool), s.joysticks.isSome = true →
        (recreateJoysticks isL s).sticksPosition = (0, 0)) := by
  refine ⟨rfl, ?_, ?_, ?_⟩
  · intro isL
    simp [recreateJoysticks, initialControlsState, destroyJoysticks]
  · intro s
    exact ⟨rfl, rfl⟩
  · intro s isL h
    simp [recreateJoysticks, destroyJoysticks, h]

/-- Witness for C8: reconstructing on a concrete landscape flip from a state
with both axes deflected brings both axes back to exactly 0. -/
theorem spaceballs_C8_witness :
    (recreateJoysticks true
        ⟨some (⟨200, true, false⟩, ⟨200, false, true⟩), (3/2, -1)⟩).sticksPosition
        = (0, 0) := by
  exact spaceballs_C8.2.2.2
    ⟨some (⟨200, true, false⟩, ⟨200, false, true⟩), (3/2, -1)⟩ true rfl

/-- C9: `getSceneFromUrl` returns the value bound to the `scene` query
parameter (the first binding, as `URLSearchParams.get` does), and for every
query in which `scene` is absent it returns the literal four-character
string "null", not an empty string. -/
theorem spaceballs_C9 (pre post search : List (String × String)) (v : String)
    (hpre : ∀ kv ∈ pre, kv.1 ≠ "scene")
    (habs : ∀ kv ∈ search, kv.1 ≠ "scene") :
    getSceneFromUrl (pre ++ ("scene", v) :: post) = v
    ∧ getSceneFromUrl search = "null"
    ∧ "null" ≠ ""
    ∧ "null".length = 4 := by
  have hfind : ∀ (l : List (String × String)), (∀ kv ∈ l, kv.1 ≠ "scene") →
      l.find? (fun kv => kv.1 == "scene") = none := by
    intro l hl
    refine List.find?_eq_none.mpr ?_
    intro x hx
    simpa using hl x hx
  have key : ∀ (l : List (String × String)), (∀ kv ∈ l, kv.1 ≠ "scene") →
      (l ++ ("scene", v) :: post).find? (fun kv => kv.1 == "scene")
        = some ("scene", v) := by
    intro l hl
    induction l with
    | nil => simp [List.find?]
    | cons a t ih =>
        have ha : a.1 ≠ "scene" := hl a (List.mem_cons_self a t)
        have hbeq : (a.1 == "scene") = false := by simpa using ha
        have ht : ∀ kv ∈ t, kv.1 ≠ "scene" :=
          fun kv hkv => hl kv (List.mem_cons_of_mem a hkv)
        simpa [List.find?, hbeq] using ih ht
  refine ⟨?_, ?_, by decide, by decide⟩
  · simp [getSceneFromUrl, getUrlParam, key pre hpre]
  · simp [getSceneFromUrl, getUrlParam, hfind search habs]

/-- Witness for C9: a query where `scene` appears after another parameter
yields its value, and a query without `scene` yields "null". -/
theorem spaceballs_C9_witness :
    getSceneFromUrl [("foo", "1"), ("scene", "arena")] = "arena"
    ∧ getSceneFromUrl [("mode", "demo")] = "null" := by
  have h := spaceballs_C9 [("foo", "1")] [] [("mode", "demo")] "arena"
    (by decide) (by decide)
  exact ⟨h.1, h.2.1⟩

/-- C1: for positive native dimensions and host area, `recalculateCanvasSize`
publishes `(r*H, H)` when `W/H > r` and `(W, W/r)` otherwise, where
`r = cw/ch`; the published pair has ratio exactly `r`, fits within `W × H`,
and no rectangle of ratio `r` fitting within `W × H` has larger area. -/
theorem spaceballs_C1 (cw ch W H : ℚ) (hcw : 0 < cw) (hch : 0 < ch)
    (hW : 0 < W) (hH : 0 < H) :
    (W / H > cw / ch → recalculateCanvasSize cw ch W H = (cw / ch * H, H))
    ∧ (¬ W / H > cw / ch → recalculateCanvasSize cw ch W H = (W, W / (cw / ch)))
    ∧ (recalculateCanvasSize cw ch W H).1 / (recalculateCanvasSize cw ch W H).2 = cw / ch
    ∧ (recalculateCanvasSize cw ch W H).1 ≤ W
    ∧ (recalculateCanvasSize cw ch W H).2 ≤ H
    ∧ (∀ w h : ℚ, 0 < w → 0 < h → w / h = cw / ch → w ≤ W → h ≤ H →
        w * h ≤ (recalculateCanvasSize cw ch W H).1 * (recalculateCanvasSize cw ch W H).2) := by
  have hr : 0 < cw / ch := div_pos hcw hch
  by_cases hc : W / H > cw / ch
  · have hp : recalculateCanvasSize cw ch W H = (cw / ch * H, H) := by
      simp only [recalculateCanvasSize]
      rw [if_pos hc]
    refine ⟨fun _ => hp, fun hn => absurd hc hn, ?_, ?_, ?_, ?_⟩
    · rw [hp]
      show cw / ch * H / H = cw / ch
      rw [mul_div_assoc, div_self hH.ne', mul_one]
    · rw [hp]
      exact le_of_lt ((lt_div_iff₀ hH).mp hc)
    · rw [hp]
    · intro w h hw hh hwh hwW hhH
      rw [hp]
      have hw_eq : w = cw / ch * h := by
        have := (div_eq_iff hh.ne').mp hwh
        linarith [this]
      have h1 : w ≤ cw / ch * H := by
        rw [hw_eq]
        exact mul_le_mul_of_nonneg_left hhH hr.le
      exact mul_le_mul h1 hhH hh.le (by positivity)
  · have hc' : W / H ≤ cw / ch := le_of_not_lt hc
    have hp : recalculateCanvasSize cw ch W H = (W, W / (cw / ch)) := by
      simp only [recalculateCanvasSize]
      rw [if_neg hc]
    refine ⟨fun hy => absurd hy hc, fun _ => hp, ?_, ?_, ?_, ?_⟩
    · rw [hp]
      show W / (W / (cw / ch)) = cw / ch
      rw [div_div_eq_mul_div, mul_comm, mul_div_assoc, div_self hW.ne', mul_one]
    · rw [hp]
    · rw [hp]
      show W / (cw / ch) ≤ H
      rw [div_le_iff₀ hr, mul_comm]
      exact (div_le_iff₀ hH).mp hc'
    · intro w h hw hh hwh hwW hhH
      rw [hp]
      have hw_eq : w = cw / ch * h := by
        have := (div_eq_iff hh.ne').mp hwh
        linarith [this]
      have hhle : h ≤ W / (cw / ch) := by
        rw [le_div_iff₀ hr]
        calc h * (cw / ch) = w := by rw [hw_eq]; ring
          _ ≤ W := hwW
      exact mul_le_mul hwW hhle hh.le hW.le

/-- Witness for C1, realizing the spec's example: native 800×600 in a
1000×500 host gives width `800/600 * 500` (≈ 666.67) and height 500, within
the host bounds. -/
theorem spaceballs_C1_witness :
    recalculateCanvasSize 800 600 1000 500 = (800 / 600 * 500, 500)
    ∧ (recalculateCanvasSize 800 600 1000 500).1 ≤ 1000
    ∧ (recalculateCanvasSize 800 600 1000 500).2 ≤ 500 := by
  have h := spaceballs_C1 800 600 1000 500 (by norm_num) (by norm_num)
    (by norm_num) (by norm_num)
  exact ⟨h.1 (by norm_num), h.2.2.2.1, h.2.2.2.2.1⟩

end Spaceballs
